import Mathlib

/-!
Verification of the weekly export robot
(`robot_framework/process.py` and `robot_framework/sub_processes/excel.py`).

The development shallowly embeds the three cores of the repository:

* the tabular merge engine of `sub_processes/excel.py`
  (`modify_dataframe`, `append_to_existing_sheet`, `create_new_excel`,
  `export_to_excel`), modelled over a column-major data frame, which is the
  native layout of a pandas `DataFrame` (an ordered mapping from column label
  to a list of cell values, plus the row count used by `len(df)`);
* the window calculator `get_week_dates` of `process.py`, modelled over a
  bounded Python `datetime` (proleptic-Gregorian ordinal in `1..3652059`,
  seconds of the day, microseconds); `datetime` plus/minus `timedelta`
  raises `OverflowError` outside that ordinal range, which the model renders
  as `Option`;
* the per-record normalization of `export_egenbefordring_from_hub`
  (`process.py` lines 115-124), including the SQL `CASE` that selects the
  `modtagelsesdato` string, `datetime.fromisoformat` + `strftime`, and
  `pd.json_normalize(json_data['data'], sep='_', max_level=0)` followed by
  the two column assignments.

Cell values of a normalized batch are the scalars a `NormalizedRow` may
carry (null, boolean, integer number, string); JSON payloads are modelled
by `JsonVal` with integer-valued numbers, which covers every payload the
claims mention.
-/

/-- A scalar cell value of a row batch handed to the merge engine:
Python `None`, `bool`, `int` or `str`. -/
inductive Scalar where
  | null
  | bool (b : Bool)
  | int (n : Int)
  | str (s : String)
deriving DecidableEq, Repr

/-- Python `str(v)` on a scalar cell value. -/
def pyStr : Scalar → String
  | .null => "None"
  | .bool b => if b then "True" else "False"
  | .int n => toString n
  | .str s => s

/-- The cell conversion of `append_to_existing_sheet` (excel.py line 90):
`str(cell) if cell is not None else ""`. -/
def cellText : Scalar → String
  | .null => ""
  | v => pyStr v

/-- A column-major pandas data frame: `nrows` is `len(df)`, `cols` the ordered
columns, each a label paired with its list of cell values. -/
structure DataFrame where
  nrows : Nat
  cols : List (String × List Scalar)
deriving DecidableEq, Repr

/-- The ordered column labels `df.columns`. -/
def DataFrame.colNames (df : DataFrame) : List String := df.cols.map Prod.fst

/-- Every column holds one value per row. -/
def DataFrame.Wf (df : DataFrame) : Prop := ∀ p ∈ df.cols, p.2.length = df.nrows

/-- Pandas column assignment `df[name] = vals`: overwrite an existing column
in place, else append a new column at the end. -/
def setColList : List (String × List Scalar) → String → List Scalar → List (String × List Scalar)
  | [], name, vals => [(name, vals)]
  | p :: tl, name, vals => if p.1 == name then (name, vals) :: tl else p :: setColList tl name vals

/-- Column assignment lifted to the data frame. -/
def DataFrame.setCol (df : DataFrame) (name : String) (vals : List Scalar) : DataFrame :=
  ⟨df.nrows, setColList df.cols name vals⟩

/-- The values of the column labelled `name`, when present. -/
def DataFrame.getCol (df : DataFrame) (name : String) : Option (List Scalar) :=
  (df.cols.find? (fun p => p.1 == name)).map Prod.snd

/-- Errors of the merge engine: `ValueError` for a length mismatch in
`add_columns`, `KeyError` from `df.drop` on a missing column, `ValueError`
for a missing `move_columns_to_last` column, `ValueError` for a missing
sheet. -/
inductive ExcelError where
  | lengthMismatch (col : String) (given rows : Nat)
  | dropMissing (col : String)
  | missingColumn (col : String)
  | sheetNotFound (sheetname : String)
deriving DecidableEq, Repr

/-- The `add_columns` loop of `modify_dataframe` (excel.py lines 50-55):
an empty value list is replaced by `[None] * len(df)`; a value list whose
length differs from `len(df)` raises `ValueError`; otherwise the column is
assigned. -/
def addColumnsLoop : DataFrame → List (String × List Scalar) → Except ExcelError DataFrame
  | df, [] => .ok df
  | df, (col_name, col_data) :: rest =>
    let col_data := if col_data.length = 0 then List.replicate df.nrows Scalar.null else col_data
    if col_data.length ≠ df.nrows then
      .error (.lengthMismatch col_name col_data.length df.nrows)
    else
      addColumnsLoop (df.setCol col_name col_data) rest

/-- The `remove_columns` step of `modify_dataframe` (excel.py line 58):
`df.drop(columns=remove_columns, inplace=True)` raises `KeyError` when a
listed label is absent (pandas validates before mutating), else removes the
listed columns. -/
def dropColumns (df : DataFrame) (names : List String) : Except ExcelError DataFrame :=
  match names.find? (fun c => !(df.colNames.contains c)) with
  | some c => .error (.dropMissing c)
  | none => .ok ⟨df.nrows, df.cols.filter (fun p => !(names.contains p.1))⟩

/-- One step of the `move_columns_to_last` loop (excel.py lines 63-65):
`cols.append(cols.pop(cols.index(col)))` pops the first column with the
given label and re-appends it at the end; `df[cols]` realigns the frame. -/
def moveToLast : List (String × List Scalar) → String → List (String × List Scalar)
  | [], _ => []
  | p :: tl, c => if p.1 == c then tl ++ [p] else p :: moveToLast tl c

/-- The `move_columns_to_last` loop of `modify_dataframe` (excel.py lines
61-67): each listed column present in the frame is moved to the end, a
listed column absent from the frame raises `ValueError`. -/
def moveLoop : DataFrame → List String → Except ExcelError DataFrame
  | df, [] => .ok df
  | df, c :: rest =>
    if df.colNames.contains c then moveLoop ⟨df.nrows, moveToLast df.cols c⟩ rest
    else .error (.missingColumn c)

/-- `modify_dataframe` (excel.py lines 36-69). Each of the three blocks is
guarded by Python truthiness of its argument (an empty dict or list skips
the block). -/
def modify_dataframe (dataframe_data : DataFrame) (add_columns : List (String × List Scalar))
    (remove_columns : List String) (move_columns_to_last : List String) :
    Except ExcelError DataFrame :=
  match (if add_columns.isEmpty then Except.ok dataframe_data
         else addColumnsLoop dataframe_data add_columns) with
  | .error e => .error e
  | .ok df1 =>
    match (if remove_columns.isEmpty then Except.ok df1
           else dropColumns df1 remove_columns) with
    | .error e => .error e
    | .ok df2 =>
      if move_columns_to_last.isEmpty then Except.ok df2
      else moveLoop df2 move_columns_to_last

/-- Value of a worksheet cell as stored in the artifact: blank, text,
integer number or boolean. -/
inductive XCell where
  | blank
  | text (s : String)
  | int (n : Int)
  | bool (b : Bool)
deriving DecidableEq, Repr

/-- Reading a stored cell back as its text: a blank cell reads as the empty
string, other cells as the text of their value. -/
def readCellText : XCell → String
  | .blank => ""
  | .text s => s
  | .int n => toString n
  | .bool b => if b then "True" else "False"

/-- The cell written by pandas `to_excel` for a scalar value: `None` becomes
a blank cell, typed scalars keep their type. -/
def toExcelCell : Scalar → XCell
  | .null => .blank
  | .bool b => .bool b
  | .int n => .int n
  | .str s => .text s

/-- A worksheet: its name and its rows (header row included). -/
structure Sheet where
  name : String
  rows : List (List XCell)
deriving DecidableEq, Repr

/-- A workbook file: its ordered sheets. -/
abbrev Workbook := List Sheet

/-- The row view `dataframe_to_rows(df, header=False, index=False)` /
`to_excel` data rows: the i-th row pairs the i-th value of every column in
column order. -/
def DataFrame.rowsView (df : DataFrame) : List (List Scalar) :=
  (List.range df.nrows).map (fun i => df.cols.map (fun p => p.2.getD i Scalar.null))

/-- A data row as appended by `append_to_existing_sheet` (excel.py lines
89-91): every cell is written as text via `cellText`. -/
def appendRow (r : List Scalar) : List XCell := r.map (fun cell => XCell.text (cellText cell))

/-- `append_to_existing_sheet` (excel.py lines 72-94): raise `ValueError`
when no sheet carries the requested name (before any write, so the file is
never saved), else append every data row of the frame, as text, at the
bottom of that sheet. -/
def append_to_existing_sheet (wb : Workbook) (sheetname : String) (df : DataFrame) :
    Except ExcelError Workbook :=
  if wb.any (fun s => s.name == sheetname) then
    Except.ok (wb.map (fun s =>
      if s.name = sheetname then ⟨s.name, s.rows ++ df.rowsView.map appendRow⟩ else s))
  else
    Except.error (.sheetNotFound sheetname)

/-- `create_new_excel` (excel.py lines 97-107): `df.to_excel` writes a fresh
workbook holding the single sheet `sheetname`, a header row of the column
labels, and one typed data row per frame row. -/
def create_new_excel (sheetname : String) (df : DataFrame) : Workbook :=
  [⟨sheetname, (df.colNames.map XCell.text) :: df.rowsView.map (fun r => r.map toExcelCell)⟩]

/-- `export_to_excel` (excel.py lines 12-33): shape the batch, then append
to the existing file or create a new one. `file` is the current content of
the artifact path (`none` when `os.path.isfile` is false). -/
def export_to_excel (file : Option Workbook) (sheetname : String) (dataframe_data : DataFrame)
    (add_columns : List (String × List Scalar)) (remove_columns : List String)
    (move_columns_to_last : List String) : Except ExcelError Workbook :=
  match modify_dataframe dataframe_data add_columns remove_columns move_columns_to_last with
  | .error e => .error e
  | .ok df =>
    match file with
    | some wb => append_to_existing_sheet wb sheetname df
    | none => Except.ok (create_new_excel sheetname df)

/-- Effect of one `export_to_excel` call on the artifact file: a raised
error aborts before any `save`, leaving the file as it was; success saves
the new workbook. -/
def export_to_excel_run (file : Option Workbook) (sheetname : String) (dataframe_data : DataFrame)
    (add_columns : List (String × List Scalar)) (remove_columns : List String)
    (move_columns_to_last : List String) : Option Workbook × Option ExcelError :=
  match export_to_excel file sheetname dataframe_data add_columns remove_columns move_columns_to_last with
  | .ok wb => (some wb, none)
  | .error e => (file, some e)

/-- Smallest supported Python `datetime` date ordinal (0001-01-01). -/
def pyMinOrdinal : Int := 1

/-- Largest supported Python `datetime` date ordinal (9999-12-31). -/
def pyMaxOrdinal : Int := 3652059

/-- A Python `datetime`: proleptic-Gregorian date ordinal (ordinal 1, the
date 0001-01-01, is a Monday), seconds of the day, microseconds. -/
structure PyDateTime where
  ord : Int
  sec : Int
  usec : Int
deriving DecidableEq, Repr

/-- The structural invariants of every constructed Python `datetime`
(`datetime.now()` in particular). -/
def PyDateTime.Valid (t : PyDateTime) : Prop :=
  pyMinOrdinal ≤ t.ord ∧ t.ord ≤ pyMaxOrdinal ∧
  0 ≤ t.sec ∧ t.sec < 86400 ∧ 0 ≤ t.usec ∧ t.usec < 1000000

instance (t : PyDateTime) : Decidable t.Valid := by
  unfold PyDateTime.Valid; infer_instance

/-- Python `datetime.weekday()`: 0 for Monday through 6 for Sunday. -/
def PyDateTime.weekday (t : PyDateTime) : Int := (t.ord - 1) % 7

/-- Python `datetime` plus a `timedelta` of whole days and seconds: the sum
is normalized by floor division, and the result must stay within the
supported date range, else `OverflowError` is raised (modelled as `none`).
Microseconds are carried unchanged (the deltas of this program have none). -/
def addDelta (t : PyDateTime) (days seconds : Int) : Option PyDateTime :=
  let total : Int := t.ord * 86400 + t.sec + days * 86400 + seconds
  let newOrd : Int := total / 86400
  let newSec : Int := total % 86400
  if pyMinOrdinal ≤ newOrd ∧ newOrd ≤ pyMaxOrdinal then some ⟨newOrd, newSec, t.usec⟩ else none

/-- The `replace(hour=0, minute=0, second=0, microsecond=0)` call of
`get_week_dates` (process.py line 57). -/
def replaceMidnight (t : PyDateTime) : PyDateTime := ⟨t.ord, 0, 0⟩

/-- Lines 56-58 of `get_week_dates` (process.py): the Monday of the week of
`today` is reached by subtracting `today.weekday()` days, its time fields
are zeroed by `replace`, and the end of the week adds
`timedelta(days=6, seconds=86399)`. -/
def week_window (today : PyDateTime) : Option (PyDateTime × PyDateTime) :=
  match addDelta today (-(PyDateTime.weekday today)) 0 with
  | none => none
  | some sow0 =>
    let start_of_week := replaceMidnight sow0
    match addDelta start_of_week 6 86399 with
    | none => none
    | some end_of_week => some (start_of_week, end_of_week)

/-- `get_week_dates` (process.py lines 39-60). `now` models
`datetime.now()`; `number_of_weeks` keeps its Python default `None`, and
line 55 tests its truthiness (`None` and `0` both keep `today = now`);
`today - timedelta(weeks=n)` subtracts `7 * n` days. -/
def get_week_dates (now : PyDateTime) (number_of_weeks : Option Int) :
    Option (PyDateTime × PyDateTime) :=
  match (match number_of_weeks with
         | some n => if n ≠ 0 then addDelta now (-(7 * n)) 0 else some now
         | none => some now) with
  | none => none
  | some today => week_window today

/-- A JSON value as decoded by `json.loads`; numbers are modelled as
integers (every payload number the claims mention is integral). -/
inductive JsonVal where
  | null
  | bool (b : Bool)
  | num (n : Int)
  | str (s : String)
  | arr (elems : List JsonVal)
  | obj (fields : List (String × JsonVal))

/-- SQL Server `JSON_VALUE` returns a scalar as its text and `NULL` for a
missing path, a JSON `null`, or a non-scalar. -/
def scalarText : JsonVal → Option String
  | .str s => some s
  | .num n => some (toString n)
  | .bool b => some (if b then "true" else "false")
  | _ => none

/-- Lookup of a field of a JSON object (`json.loads` yields unique keys;
the first binding is taken). -/
def getField : JsonVal → String → Option JsonVal
  | .obj fields, name => (fields.find? (fun p => p.1 == name)).map Prod.snd
  | _, _ => none

/-- `JSON_VALUE(data, '$.completed')` of the export query. -/
def json_value_completed (j : JsonVal) : Option String :=
  (getField j "completed").bind scalarText

/-- `JSON_VALUE(data, '$.entity.completed[0].value')` of the export query. -/
def json_value_entity_completed (j : JsonVal) : Option String :=
  ((getField j "entity").bind (fun e =>
    match getField e "completed" with
    | some (.arr (v0 :: _)) => getField v0 "value"
    | _ => none)).bind scalarText

/-- The `CASE` of the export query (process.py lines 100-103): the
`modtagelsesdato` column is `$.completed` when that scalar is not `NULL`,
else `$.entity.completed[0].value`. -/
def modtagelsesdatoOf (j : JsonVal) : Option String :=
  match json_value_completed j with
  | some s => some s
  | none => json_value_entity_completed j

/-- Leap year rule of the Gregorian calendar, as in Python `calendar`. -/
def isLeapYear (y : Nat) : Bool := y % 4 == 0 && (y % 100 != 0 || y % 400 == 0)

/-- Days of a month of a year. -/
def daysInMonth (y m : Nat) : Nat :=
  if m == 2 then (if isLeapYear y then 29 else 28)
  else if m == 4 || m == 6 || m == 9 || m == 11 then 30
  else 31

/-- The value of a decimal digit character. -/
def digit? (c : Char) : Option Nat := if c.isDigit then some (c.toNat - 48) else none

/-- The value of a two-digit decimal field. -/
def twoDigits (a b : Char) : Option Nat := do
  let x ← digit? a
  let y ← digit? b
  some (10 * x + y)

/-- The six fields of a parsed timestamp. -/
structure TimeStamp where
  year : Nat
  month : Nat
  day : Nat
  hour : Nat
  minute : Nat
  second : Nat
deriving DecidableEq, Repr

/-- Python `datetime.fromisoformat` restricted to the seconds-precision
shape `YYYY-MM-DD*HH:MM:SS` the records carry: exactly two-digit fields, a
single arbitrary date/time separator character, and calendar-valid field
ranges; anything else raises `ValueError` (modelled as `none`). -/
def fromisoformat (s : String) : Option TimeStamp := do
  let cs := s.toList
  if cs.length = 19 ∧ cs.getD 4 ' ' = '-' ∧ cs.getD 7 ' ' = '-' ∧
      cs.getD 13 ' ' = ':' ∧ cs.getD 16 ' ' = ':' then
    let yh ← twoDigits (cs.getD 0 ' ') (cs.getD 1 ' ')
    let yl ← twoDigits (cs.getD 2 ' ') (cs.getD 3 ' ')
    let month ← twoDigits (cs.getD 5 ' ') (cs.getD 6 ' ')
    let day ← twoDigits (cs.getD 8 ' ') (cs.getD 9 ' ')
    let hour ← twoDigits (cs.getD 11 ' ') (cs.getD 12 ' ')
    let minute ← twoDigits (cs.getD 14 ' ') (cs.getD 15 ' ')
    let second ← twoDigits (cs.getD 17 ' ') (cs.getD 18 ' ')
    let year := 100 * yh + yl
    if 1 ≤ year ∧ 1 ≤ month ∧ month ≤ 12 ∧ 1 ≤ day ∧ day ≤ daysInMonth year month ∧
        hour ≤ 23 ∧ minute ≤ 59 ∧ second ≤ 59 then
      some ⟨year, month, day, hour, minute, second⟩
    else none
  else none

/-- A natural number zero-padded to two digits. -/
def pad2 (n : Nat) : String := if n < 10 then "0" ++ toString n else toString n

/-- A natural number zero-padded to four digits. -/
def pad4 (n : Nat) : String :=
  (if n < 10 then "000" else if n < 100 then "00" else if n < 1000 then "0" else "") ++ toString n

/-- Python `strftime("%Y-%m-%d %H:%M:%S")` on a parsed timestamp
(process.py line 119). -/
def strftime_ymd_hms (t : TimeStamp) : String :=
  pad4 t.year ++ "-" ++ pad2 t.month ++ "-" ++ pad2 t.day ++ " " ++
  pad2 t.hour ++ ":" ++ pad2 t.minute ++ ":" ++ pad2 t.second

/-- Pandas column assignment on the one-row frame produced by
`json_normalize`: overwrite the field in place when the label exists, else
append it at the end. -/
def setField : List (String × JsonVal) → String → JsonVal → List (String × JsonVal)
  | [], name, v => [(name, v)]
  | p :: tl, name, v => if p.1 == name then (name, v) :: tl else p :: setField tl name v

/-- The per-record normalization of `export_egenbefordring_from_hub`
(process.py lines 115-123), composed with the query `CASE` that yields
`row.modtagelsesdato`: parse the selected timestamp with `fromisoformat`
and reformat it; read `json_data['data']` (a JSON object here);
`pd.json_normalize(json_data['data'], sep='_', max_level=0)` yields a
one-row frame whose columns are exactly the top-level keys of `data`, the
values kept whole (at `max_level=0` nothing is flattened and `sep` is
unused); finally assign the `modtagelsesdato` and `uuid` columns. -/
def normalize_record (reference : String) (payload : JsonVal) :
    Option (List (String × JsonVal)) :=
  match modtagelsesdatoOf payload with
  | none => none
  | some received_date =>
    match fromisoformat received_date with
    | none => none
    | some datetime_obj =>
      let formatted_datetime_str := strftime_ymd_hms datetime_obj
      match getField payload "data" with
      | some (.obj fields) =>
        some (setField (setField fields "modtagelsesdato" (.str formatted_datetime_str))
          "uuid" (.str reference))
      | _ => none

/-- The payload of the end-to-end scenario of the specification. -/
def examplePayload : JsonVal :=
  .obj [("data", .obj [("a", .num 1), ("b", .obj [("c", .num 2)])]),
        ("completed", .str "2024-03-04T10:00:00")]

theorem setCol_nrows (df : DataFrame) (name : String) (vals : List Scalar) :
    (df.setCol name vals).nrows = df.nrows := rfl

theorem addColumnsLoop_nrows : ∀ (l : List (String × List Scalar)) (df df' : DataFrame),
    addColumnsLoop df l = .ok df' → df'.nrows = df.nrows := by
  intro l
  induction l with
  | nil =>
    intro df df' h
    simp only [addColumnsLoop] at h
    cases h
    rfl
  | cons p rest ih =>
    intro df df' h
    simp only [addColumnsLoop] at h
    repeat' split at h
    all_goals first
      | exact absurd h (by simp)
      | (have hr := ih _ df' h; exact hr)

theorem dropColumns_nrows (df df' : DataFrame) (names : List String)
    (h : dropColumns df names = .ok df') : df'.nrows = df.nrows := by
  unfold dropColumns at h
  split at h
  · exact absurd h (by simp)
  · cases h; rfl

theorem moveLoop_nrows : ∀ (ts : List String) (df df' : DataFrame),
    moveLoop df ts = .ok df' → df'.nrows = df.nrows := by
  intro ts
  induction ts with
  | nil =>
    intro df df' h
    simp only [moveLoop] at h
    cases h
    rfl
  | cons c rest ih =>
    intro df df' h
    simp only [moveLoop] at h
    split at h
    · have hr := ih _ df' h
      exact hr
    · exact absurd h (by simp)

theorem modify_dataframe_nrows (df df' : DataFrame) (a : List (String × List Scalar))
    (r m : List String) (h : modify_dataframe df a r m = .ok df') : df'.nrows = df.nrows := by
  unfold modify_dataframe at h
  split at h
  · exact absurd h (by simp)
  next df1 h1 =>
    split at h
    · exact absurd h (by simp)
    next df2 h2 =>
      have hn1 : df1.nrows = df.nrows := by
        split at h1
        · cases h1; rfl
        · exact addColumnsLoop_nrows a df df1 h1
      have hn2 : df2.nrows = df1.nrows := by
        split at h2
        · cases h2; rfl
        · exact dropColumns_nrows df1 df2 r h2
      have hn3 : df'.nrows = df2.nrows := by
        split at h
        · cases h; rfl
        · exact moveLoop_nrows m df2 df' h
      omega

theorem rowsView_length (df : DataFrame) : df.rowsView.length = df.nrows := by
  simp [DataFrame.rowsView]

/-- C2: merging a non-empty shaped row batch into an absent artifact creates
a workbook holding the single sheet `sheetname`, whose header row is the
shaped batch's column order and whose data-row count equals the batch
size. -/
theorem claim_C2 (df df' : DataFrame) (add_columns : List (String × List Scalar))
    (remove_columns move_columns_to_last : List String) (sheetname : String)
    (hne : df.nrows ≠ 0)
    (hmod : modify_dataframe df add_columns remove_columns move_columns_to_last = .ok df') :
    export_to_excel none sheetname df add_columns remove_columns move_columns_to_last
      = .ok [⟨sheetname, (df'.colNames.map XCell.text) ::
          df'.rowsView.map (fun r => r.map toExcelCell)⟩]
    ∧ (df'.rowsView.map (fun r => r.map toExcelCell)).length = df.nrows := by
  constructor
  · unfold export_to_excel
    rw [hmod]
    rfl
  · have hn := modify_dataframe_nrows df df' _ _ _ hmod
    simp [rowsView_length, hn]

theorem claim_C2_witness :
    export_to_excel none "54_2024" ⟨2, [("a", [Scalar.int 1, Scalar.int 2])]⟩ [] [] []
      = .ok [⟨"54_2024", [[XCell.text "a"], [XCell.int 1], [XCell.int 2]]⟩] :=
  (claim_C2 ⟨2, [("a", [Scalar.int 1, Scalar.int 2])]⟩ ⟨2, [("a", [Scalar.int 1, Scalar.int 2])]⟩
    [] [] [] "54_2024" (by decide) rfl).1

/-- C3: merging a batch of `k` shaped rows into a present artifact that has a
sheet named `sheetname` appends exactly `k` data rows at the bottom of that
sheet, leaving its previous rows and every other sheet unchanged. -/
theorem claim_C3 (wb : Workbook) (sheetname : String) (df df' : DataFrame)
    (add_columns : List (String × List Scalar)) (remove_columns move_columns_to_last : List String)
    (hmod : modify_dataframe df add_columns remove_columns move_columns_to_last = .ok df')
    (hmem : wb.any (fun s => s.name == sheetname) = true) :
    export_to_excel (some wb) sheetname df add_columns remove_columns move_columns_to_last
      = .ok (wb.map (fun s =>
          if s.name = sheetname then ⟨s.name, s.rows ++ df'.rowsView.map appendRow⟩ else s))
    ∧ (df'.rowsView.map appendRow).length = df.nrows := by
  constructor
  · have happ : append_to_existing_sheet wb sheetname df'
        = .ok (wb.map (fun s =>
            if s.name = sheetname then ⟨s.name, s.rows ++ df'.rowsView.map appendRow⟩ else s)) := by
      unfold append_to_existing_sheet
      rw [if_pos hmem]
    unfold export_to_excel
    rw [hmod]
    dsimp only
    exact happ
  · have hn := modify_dataframe_nrows df df' _ _ _ hmod
    simp [rowsView_length, hn]

theorem claim_C3_witness :
    export_to_excel (some [⟨"54_2024", [[XCell.text "a"], [XCell.text "0"]]⟩, ⟨"other", []⟩])
      "54_2024" ⟨2, [("a", [Scalar.int 1, Scalar.null])]⟩ [] [] []
      = .ok [⟨"54_2024", [[XCell.text "a"], [XCell.text "0"], [XCell.text "1"], [XCell.text ""]]⟩,
             ⟨"other", []⟩] := by
  have h := (claim_C3 [⟨"54_2024", [[XCell.text "a"], [XCell.text "0"]]⟩, ⟨"other", []⟩]
    "54_2024" ⟨2, [("a", [Scalar.int 1, Scalar.null])]⟩ ⟨2, [("a", [Scalar.int 1, Scalar.null])]⟩
    [] [] [] rfl (by decide)).1
  rw [h]
  rfl

/-- C4: merging into a present artifact that has no sheet named `sheetname`
fails with the sheet-not-found error and leaves the artifact file exactly as
it was. -/
theorem claim_C4 (wb : Workbook) (sheetname : String) (df df' : DataFrame)
    (add_columns : List (String × List Scalar)) (remove_columns move_columns_to_last : List String)
    (hmod : modify_dataframe df add_columns remove_columns move_columns_to_last = .ok df')
    (habs : ∀ s ∈ wb, s.name ≠ sheetname) :
    export_to_excel_run (some wb) sheetname df add_columns remove_columns move_columns_to_last
      = (some wb, some (.sheetNotFound sheetname)) := by
  have hany : wb.any (fun s => s.name == sheetname) = false := by
    simp only [List.any_eq_false]
    intro s hs
    simp [habs s hs]
  have happ : append_to_existing_sheet wb sheetname df'
      = .error (.sheetNotFound sheetname) := by
    unfold append_to_existing_sheet
    rw [if_neg (by simp [hany])]
  have hexp : export_to_excel (some wb) sheetname df add_columns remove_columns
      move_columns_to_last = .error (.sheetNotFound sheetname) := by
    unfold export_to_excel
    rw [hmod]
    dsimp only
    exact happ
  unfold export_to_excel_run
  rw [hexp]

theorem claim_C4_witness :
    export_to_excel_run (some [⟨"53_2024", [[XCell.text "a"]]⟩]) "54_2024"
      ⟨1, [("a", [Scalar.int 1])]⟩ [] [] []
      = (some [⟨"53_2024", [[XCell.text "a"]]⟩], some (.sheetNotFound "54_2024")) :=
  claim_C4 [⟨"53_2024", [[XCell.text "a"]]⟩] "54_2024"
    ⟨1, [("a", [Scalar.int 1])]⟩ ⟨1, [("a", [Scalar.int 1])]⟩ [] [] [] rfl (by decide)

/-- C10 (implicit): when a `remove_columns` entry names a column absent from
the shaped batch (after column injection), the merge raises the drop error
instead of silently skipping the entry, and the artifact file is left
untouched. -/
theorem claim_C10 (file : Option Workbook) (sheetname : String) (df df1 : DataFrame)
    (add_columns : List (String × List Scalar)) (remove_columns move_columns_to_last : List String)
    (c : String)
    (hadd : modify_dataframe df add_columns [] [] = .ok df1)
    (hfind : remove_columns.find? (fun name => !(df1.colNames.contains name)) = some c) :
    export_to_excel_run file sheetname df add_columns remove_columns move_columns_to_last
      = (file, some (.dropMissing c)) := by
  have hstep : (if add_columns.isEmpty then Except.ok df else addColumnsLoop df add_columns)
      = .ok df1 := by
    unfold modify_dataframe at hadd
    split at hadd
    · exact absurd hadd (by simp)
    next d h1 =>
      injection hadd with h2
      rw [h2] at h1
      exact h1
  have hne : remove_columns.isEmpty = false := by
    cases remove_columns
    · simp at hfind
    · rfl
  have hdrop : dropColumns df1 remove_columns = .error (.dropMissing c) := by
    unfold dropColumns
    rw [hfind]
  have hmod2 : modify_dataframe df add_columns remove_columns move_columns_to_last
      = .error (.dropMissing c) := by
    unfold modify_dataframe
    rw [hstep]
    dsimp only
    rw [if_neg (by simp [hne]), hdrop]
  have hexp : export_to_excel file sheetname df add_columns remove_columns move_columns_to_last
      = .error (.dropMissing c) := by
    unfold export_to_excel
    rw [hmod2]
  unfold export_to_excel_run
  rw [hexp]

theorem claim_C10_witness :
    export_to_excel_run none "54_2024" ⟨1, [("a", [Scalar.int 1])]⟩ []
      ["koerselsliste_tomme_felter_tjek_"] ["uuid"]
      = (none, some (.dropMissing "koerselsliste_tomme_felter_tjek_")) :=
  claim_C10 none "54_2024" ⟨1, [("a", [Scalar.int 1])]⟩ ⟨1, [("a", [Scalar.int 1])]⟩ []
    ["koerselsliste_tomme_felter_tjek_"] ["uuid"] "koerselsliste_tomme_felter_tjek_"
    rfl (by decide)

theorem find_setColList (l : List (String × List Scalar)) (x : String) (vals : List Scalar) :
    ((setColList l x vals).find? (fun p => p.1 == x)).map Prod.snd = some vals := by
  induction l with
  | nil => simp [setColList]
  | cons p tl ih =>
    by_cases hp : (p.1 == x) = true
    · simp [setColList, hp]
    · simp only [setColList, hp, if_neg, Bool.false_eq_true, not_false_eq_true, if_false]
      rw [List.find?_cons_of_neg _ (by simp [hp])]
      exact ih

theorem getCol_setCol (df : DataFrame) (x : String) (vals : List Scalar) :
    (df.setCol x vals).getCol x = some vals :=
  find_setColList df.cols x vals

theorem addColumnsLoop_single (df : DataFrame) (x : String) (vals : List Scalar) :
    addColumnsLoop df [(x, vals)] =
      (let cd := if vals.length = 0 then List.replicate df.nrows Scalar.null else vals
       if cd.length ≠ df.nrows then .error (.lengthMismatch x cd.length df.nrows)
       else .ok (df.setCol x cd)) := by
  unfold addColumnsLoop
  split
  · rfl
  · rfl

/-- C5: injecting a column with an empty value list sets that column to null
in every row of the batch; injecting an explicit value list whose length
differs from the batch size fails with the length-mismatch error; injecting
a value list of matching length assigns exactly the listed values. -/
theorem claim_C5 (df : DataFrame) (x : String) :
    (modify_dataframe df [(x, [])] [] []
        = .ok (df.setCol x (List.replicate df.nrows Scalar.null))
      ∧ (df.setCol x (List.replicate df.nrows Scalar.null)).getCol x
          = some (List.replicate df.nrows Scalar.null))
    ∧ (∀ vals : List Scalar, vals ≠ [] → vals.length ≠ df.nrows →
        modify_dataframe df [(x, vals)] [] []
          = .error (.lengthMismatch x vals.length df.nrows))
    ∧ (∀ vals : List Scalar, vals ≠ [] → vals.length = df.nrows →
        modify_dataframe df [(x, vals)] [] [] = .ok (df.setCol x vals)
          ∧ (df.setCol x vals).getCol x = some vals) := by
  refine ⟨⟨?_, getCol_setCol df x _⟩, ?_, ?_⟩
  · have h1 : addColumnsLoop df [(x, [])]
        = .ok (df.setCol x (List.replicate df.nrows Scalar.null)) := by
      rw [addColumnsLoop_single]
      simp
    unfold modify_dataframe
    rw [show (if ([(x, ([] : List Scalar))].isEmpty) then Except.ok df
        else addColumnsLoop df [(x, [])]) = addColumnsLoop df [(x, [])] from rfl, h1]
    rfl
  · intro vals hvne hvlen
    have h0 : ¬(vals.length = 0) := by simpa [List.length_eq_zero] using hvne
    have h1 : addColumnsLoop df [(x, vals)]
        = .error (.lengthMismatch x vals.length df.nrows) := by
      rw [addColumnsLoop_single]
      dsimp only
      rw [if_neg h0, if_pos hvlen]
    unfold modify_dataframe
    rw [show (if ([(x, vals)].isEmpty) then Except.ok df
        else addColumnsLoop df [(x, vals)]) = addColumnsLoop df [(x, vals)] from rfl, h1]
  · intro vals hvne hvlen
    refine ⟨?_, getCol_setCol df x vals⟩
    have h0 : ¬(vals.length = 0) := by simpa [List.length_eq_zero] using hvne
    have h1 : addColumnsLoop df [(x, vals)] = .ok (df.setCol x vals) := by
      rw [addColumnsLoop_single]
      dsimp only
      rw [if_neg h0, if_neg (by simp [hvlen])]
    unfold modify_dataframe
    rw [show (if ([(x, vals)].isEmpty) then Except.ok df
        else addColumnsLoop df [(x, vals)]) = addColumnsLoop df [(x, vals)] from rfl, h1]
    rfl

theorem claim_C5_witness :
    (modify_dataframe ⟨3, [("c0", [Scalar.int 1, Scalar.int 2, Scalar.int 3])]⟩
        [("x", [])] [] []).toOption.bind (fun d => d.getCol "x")
      = some [Scalar.null, Scalar.null, Scalar.null]
    ∧ modify_dataframe ⟨3, [("c0", [Scalar.int 1, Scalar.int 2, Scalar.int 3])]⟩
        [("x", [Scalar.int 1, Scalar.int 2])] [] []
      = .error (.lengthMismatch "x" 2 3)
    ∧ (modify_dataframe ⟨3, [("c0", [Scalar.int 1, Scalar.int 2, Scalar.int 3])]⟩
        [("x", [Scalar.int 7, Scalar.int 8, Scalar.int 9])] [] []).toOption.bind
          (fun d => d.getCol "x")
      = some [Scalar.int 7, Scalar.int 8, Scalar.int 9] := by
  have h := claim_C5 ⟨3, [("c0", [Scalar.int 1, Scalar.int 2, Scalar.int 3])]⟩ "x"
  refine ⟨?_, h.2.1 [Scalar.int 1, Scalar.int 2] (by decide) (by decide), ?_⟩
  · rw [h.1.1]
    rfl
  · rw [(h.2.2 [Scalar.int 7, Scalar.int 8, Scalar.int 9] (by decide) (by decide)).1]
    rfl

theorem moveToLast_of_not_mem (l : List (String × List Scalar)) (t : String)
    (h : t ∉ l.map Prod.fst) : moveToLast l t = l := by
  induction l with
  | nil => rfl
  | cons p tl ih =>
    simp only [List.map_cons, List.mem_cons, not_or] at h
    simp only [moveToLast]
    rw [if_neg (by simp [Ne.symm h.1])]
    rw [ih h.2]

theorem moveToLast_map_fst (l : List (String × List Scalar)) (t : String)
    (hnd : (l.map Prod.fst).Nodup) (hm : t ∈ l.map Prod.fst) :
    (moveToLast l t).map Prod.fst
      = (l.map Prod.fst).filter (fun a => !(a == t)) ++ [t] := by
  induction l with
  | nil => simp at hm
  | cons p tl ih =>
    simp only [List.map_cons, List.nodup_cons] at hnd
    by_cases hp : p.1 = t
    · simp only [moveToLast]
      rw [if_pos (by simp [hp])]
      have htl : t ∉ tl.map Prod.fst := hp ▸ hnd.1
      have hfix : (tl.map Prod.fst).filter (fun a => !(a == t)) = tl.map Prod.fst := by
        rw [List.filter_eq_self]
        intro a ha
        have hat : a ≠ t := fun hat => htl (hat ▸ ha)
        simp [hat]
      simp only [List.map_append, List.map_cons, List.map_nil, List.filter_cons]
      rw [show ((!(p.1 == t)) = false) from by simp [hp], hfix]
      simp [hp]
    · have hm' : t ∈ tl.map Prod.fst := by
        rcases List.mem_cons.mp hm with h | h
        · exact absurd h.symm hp
        · exact h
      simp only [moveToLast]
      rw [if_neg (by simp [hp])]
      simp only [List.map_cons, List.filter_cons]
      rw [show ((!(p.1 == t)) = true) from by simp [hp]]
      rw [ih hnd.2 hm']
      rfl

theorem moveToLast_contains (l : List (String × List Scalar)) (c a : String) :
    ((moveToLast l c).map Prod.fst).contains a = (l.map Prod.fst).contains a := by
  induction l with
  | nil => rfl
  | cons p tl ih =>
    simp only [moveToLast]
    by_cases hp : (p.1 == c) = true
    · rw [if_pos hp]
      simp only [List.contains, List.elem_eq_mem, List.map_append, List.map_cons, List.map_nil,
        List.mem_append, List.mem_cons, List.mem_singleton, List.not_mem_nil, or_false]
      rw [decide_eq_decide]
      tauto
    · rw [if_neg hp]
      simp only [List.map_cons, List.contains_cons, ih]

theorem moveLoop_colNames : ∀ (ts : List String) (df : DataFrame),
    df.colNames.Nodup → ts.Nodup → (∀ t ∈ ts, t ∈ df.colNames) →
    (moveLoop df ts).toOption.map DataFrame.colNames
      = some (df.colNames.filter (fun c => !(ts.contains c)) ++ ts) := by
  intro ts
  induction ts with
  | nil =>
    intro df _ _ _
    simp [moveLoop, Except.toOption, DataFrame.colNames]
  | cons t rest ih =>
    intro df hnd hts hall
    have hmem : t ∈ df.colNames := hall t (by simp)
    have hcont : df.colNames.contains t = true := by
      simp [List.contains, List.elem_eq_mem, hmem]
    have htrest : t ∉ rest := (List.nodup_cons.mp hts).1
    simp only [moveLoop]
    rw [if_pos hcont]
    have hnames1 : (DataFrame.colNames ⟨df.nrows, moveToLast df.cols t⟩)
        = df.colNames.filter (fun a => !(a == t)) ++ [t] :=
      moveToLast_map_fst df.cols t hnd hmem
    have hnd1 : (DataFrame.colNames ⟨df.nrows, moveToLast df.cols t⟩).Nodup := by
      rw [hnames1]
      refine List.Nodup.append (hnd.filter _) (List.nodup_singleton t) ?_
      intro a ha hb
      simp only [List.mem_filter] at ha
      simp only [List.mem_singleton] at hb
      simp [hb] at ha
    have hall1 : ∀ r ∈ rest, r ∈ DataFrame.colNames ⟨df.nrows, moveToLast df.cols t⟩ := by
      intro r hr
      rw [hnames1]
      by_cases hrt : r = t
      · simp [hrt]
      · have := hall r (by simp [hr])
        simp [List.mem_append, List.mem_filter, this, hrt]
    rw [ih _ hnd1 (List.nodup_cons.mp hts).2 hall1]
    rw [hnames1]
    rw [List.filter_append, List.filter_filter]
    have hpred : ∀ a, ((!(rest.contains a)) && (!(a == t))) = (!((t :: rest).contains a)) := by
      intro a
      simp only [List.contains_cons]
      cases h1 : (a == t) <;> cases h2 : rest.contains a <;> rfl
    simp only [hpred]
    have hkeep : ([t].filter (fun c => !(rest.contains c))) = [t] := by
      simp [List.filter_cons, htrest]
    rw [hkeep, List.append_assoc, List.singleton_append]

theorem moveLoop_find_missing : ∀ (ts : List String) (df : DataFrame) (t : String),
    ts.find? (fun c => !(df.colNames.contains c)) = some t →
    moveLoop df ts = .error (.missingColumn t) := by
  intro ts
  induction ts with
  | nil => intro df t h; simp at h
  | cons c rest ih =>
    intro df t h
    cases hx : df.colNames.contains c with
    | true =>
      simp only [List.find?_cons, hx, Bool.not_true] at h
      simp only [moveLoop]
      rw [if_pos hx]
      apply ih
      have hfun : (fun x => !((DataFrame.colNames ⟨df.nrows, moveToLast df.cols c⟩).contains x))
          = (fun x => !(df.colNames.contains x)) := by
        funext x
        have hcc := moveToLast_contains df.cols c x
        simp only [DataFrame.colNames]
        rw [hcc]
      rw [hfun]
      exact h
    | false =>
      simp only [List.find?_cons, hx, Bool.not_false] at h
      injection h with h'
      subst h'
      simp only [moveLoop]
      rw [if_neg (by rw [hx]; exact Bool.false_ne_true)]

theorem modify_move_only (df : DataFrame) (ts : List String) :
    modify_dataframe df [] [] ts = moveLoop df ts := by
  cases ts with
  | nil => rfl
  | cons t rest => rfl

/-- C6: applying the shape policy moves every `move_columns_to_last` entry to
the end of the column order; the remaining columns keep their relative
order, and the trailing columns end up in the policy list's order; a listed
column absent from the batch's column set makes the operation fail with a
hard error. -/
theorem claim_C6 (df : DataFrame) (move_columns_to_last : List String)
    (hnd : df.colNames.Nodup) (hts : move_columns_to_last.Nodup) :
    ((∀ t ∈ move_columns_to_last, t ∈ df.colNames) →
      (modify_dataframe df [] [] move_columns_to_last).toOption.map DataFrame.colNames
        = some (df.colNames.filter (fun c => !(move_columns_to_last.contains c))
            ++ move_columns_to_last))
    ∧ (∀ t, move_columns_to_last.find? (fun c => !(df.colNames.contains c)) = some t →
        modify_dataframe df [] [] move_columns_to_last = .error (.missingColumn t)) := by
  constructor
  · intro hall
    rw [modify_move_only]
    exact moveLoop_colNames _ df hnd hts hall
  · intro t ht
    rw [modify_move_only]
    exact moveLoop_find_missing _ df t ht

theorem claim_C6_witness :
    (modify_dataframe
        ⟨1, [("a", [Scalar.int 0]), ("uuid", [Scalar.int 1]), ("test", [Scalar.int 2])]⟩
        [] [] ["test", "uuid"]).toOption.map DataFrame.colNames
      = some ["a", "test", "uuid"]
    ∧ modify_dataframe ⟨1, [("a", [Scalar.int 0])]⟩ [] [] ["attachments"]
      = .error (.missingColumn "attachments") := by
  constructor
  · have h := (claim_C6
      ⟨1, [("a", [Scalar.int 0]), ("uuid", [Scalar.int 1]), ("test", [Scalar.int 2])]⟩
      ["test", "uuid"] (by decide) (by decide)).1 (by decide)
    rw [h]
    rfl
  · exact (claim_C6 ⟨1, [("a", [Scalar.int 0])]⟩ ["attachments"] (by decide) (by decide)).2
      "attachments" (by decide)

/-- C7: a normalized row written into the artifact and read back yields the
same string values, column for column in written order, with null read back
as the empty string; this holds for the appended-text cells of
`append_to_existing_sheet` and for the typed cells written by
`create_new_excel`. -/
theorem claim_C7 (row : List Scalar) :
    (appendRow row).map readCellText = row.map cellText
    ∧ (row.map toExcelCell).map readCellText = row.map cellText
    ∧ cellText Scalar.null = ""
    ∧ (∀ s, cellText (Scalar.str s) = s) := by
  refine ⟨?_, ?_, rfl, fun s => rfl⟩
  · simp only [appendRow, List.map_map]
    exact List.map_congr_left (fun c _ => rfl)
  · simp only [List.map_map]
    refine List.map_congr_left (fun c _ => ?_)
    cases c <;> rfl

theorem addDelta_eq_some (t : PyDateTime) (days seconds : Int) (r : PyDateTime)
    (h : addDelta t days seconds = some r) :
    r.ord = (t.ord * 86400 + t.sec + days * 86400 + seconds) / 86400
    ∧ r.sec = (t.ord * 86400 + t.sec + days * 86400 + seconds) % 86400
    ∧ r.usec = t.usec
    ∧ 1 ≤ r.ord ∧ r.ord ≤ 3652059 := by
  unfold addDelta at h
  dsimp only at h
  split at h
  next hcond =>
    injection h with h'
    subst h'
    exact ⟨rfl, rfl, rfl, hcond.1, hcond.2⟩
  next => exact absurd h (by simp)

theorem addDelta_some (t : PyDateTime) (days seconds : Int)
    (hcond : 1 ≤ (t.ord * 86400 + t.sec + days * 86400 + seconds) / 86400
      ∧ (t.ord * 86400 + t.sec + days * 86400 + seconds) / 86400 ≤ 3652059) :
    addDelta t days seconds
      = some ⟨(t.ord * 86400 + t.sec + days * 86400 + seconds) / 86400,
              (t.ord * 86400 + t.sec + days * 86400 + seconds) % 86400, t.usec⟩ := by
  unfold addDelta
  exact if_pos hcond

theorem week_window_spec (today s e : PyDateTime)
    (hs0 : 0 ≤ today.sec) (hs1 : today.sec < 86400)
    (h : week_window today = some (s, e)) :
    s.ord = today.ord - (today.ord - 1) % 7 ∧ s.sec = 0 ∧ s.usec = 0
    ∧ e.ord = s.ord + 6 ∧ e.sec = 86399 ∧ e.usec = 0 := by
  unfold week_window at h
  cases h1 : addDelta today (-(PyDateTime.weekday today)) 0 with
  | none => rw [h1] at h; exact absurd h (by simp)
  | some sow0 =>
    rw [h1] at h
    dsimp only at h
    cases h2 : addDelta (replaceMidnight sow0) 6 86399 with
    | none => rw [h2] at h; exact absurd h (by simp)
    | some eow =>
      rw [h2] at h
      dsimp only at h
      injection h with h'
      have hse := h'
      rw [Prod.mk.injEq] at hse
      obtain ⟨hs, he⟩ := hse
      subst hs
      subst he
      obtain ⟨ho1, hsec1, hu1, hb1, hb2⟩ := addDelta_eq_some _ _ _ _ h1
      obtain ⟨ho2, hsec2, hu2, hb3, hb4⟩ := addDelta_eq_some _ _ _ _ h2
      have hw : PyDateTime.weekday today = (today.ord - 1) % 7 := rfl
      rw [hw] at ho1
      dsimp only [replaceMidnight] at ho2 hsec2 hu2 ⊢
      refine ⟨?_, rfl, rfl, ?_, ?_, hu2⟩
      · omega
      · omega
      · omega

theorem week_window_isSome (today : PyDateTime)
    (hs0 : 0 ≤ today.sec) (hs1 : today.sec < 86400)
    (ho1 : 1 ≤ today.ord) (ho2 : today.ord ≤ 3652059)
    (ho3 : today.ord - (today.ord - 1) % 7 + 6 ≤ 3652059) :
    (week_window today).isSome = true := by
  have hw : PyDateTime.weekday today = (today.ord - 1) % 7 := rfl
  unfold week_window
  rw [hw]
  rw [addDelta_some today (-((today.ord - 1) % 7)) 0 (by constructor <;> omega)]
  dsimp only [replaceMidnight]
  have hE : (today.ord * 86400 + today.sec + (-((today.ord - 1) % 7)) * 86400 + 0) / 86400
      = today.ord - (today.ord - 1) % 7 := by omega
  rw [hE]
  rw [addDelta_some ⟨today.ord - (today.ord - 1) % 7, 0, 0⟩ 6 86399 (by dsimp only; omega)]
  rfl

/-- C8: whenever `get_week_dates` returns a window, its start falls on a
Monday at 00:00:00 with zero microseconds, and its end is exactly 6 days,
23 hours, 59 minutes and 59 seconds after the start. -/
theorem claim_C8 (now : PyDateTime) (number_of_weeks : Option Int) (s e : PyDateTime)
    (hv : now.Valid)
    (h : get_week_dates now number_of_weeks = some (s, e)) :
    s.weekday = 0 ∧ s.sec = 0 ∧ s.usec = 0
    ∧ e.ord = s.ord + 6 ∧ e.sec = 86399 ∧ e.usec = 0 := by
  obtain ⟨hv1, hv2, hv3, hv4, hv5, hv6⟩ := hv
  have main : ∀ today : PyDateTime, 0 ≤ today.sec → today.sec < 86400 →
      week_window today = some (s, e) →
      s.weekday = 0 ∧ s.sec = 0 ∧ s.usec = 0
      ∧ e.ord = s.ord + 6 ∧ e.sec = 86399 ∧ e.usec = 0 := by
    intro today ht0 ht1 hwin
    obtain ⟨hso, hss, hsu, heo, hes, heu⟩ := week_window_spec today s e ht0 ht1 hwin
    refine ⟨?_, hss, hsu, heo, hes, heu⟩
    show (s.ord - 1) % 7 = 0
    omega
  unfold get_week_dates at h
  rcases number_of_weeks with _ | n
  · exact main now hv3 hv4 h
  · dsimp only at h
    by_cases hn : n = 0
    · subst hn
      rw [if_neg (by simp)] at h
      exact main now hv3 hv4 h
    · rw [if_pos hn] at h
      cases h1 : addDelta now (-(7 * n)) 0 with
      | none => rw [h1] at h; exact absurd h (by simp)
      | some today =>
        rw [h1] at h
        dsimp only at h
        obtain ⟨hto, hts, htu, htb1, htb2⟩ := addDelta_eq_some _ _ _ _ h1
        exact main today (by omega) (by omega) h

theorem claim_C8_witness :
    PyDateTime.weekday ⟨738998, 0, 0⟩ = 0 ∧ (⟨738998, 0, 0⟩ : PyDateTime).sec = 0
    ∧ (⟨738998, 0, 0⟩ : PyDateTime).usec = 0
    ∧ (⟨739004, 86399, 0⟩ : PyDateTime).ord = (⟨738998, 0, 0⟩ : PyDateTime).ord + 6
    ∧ (⟨739004, 86399, 0⟩ : PyDateTime).sec = 86399
    ∧ (⟨739004, 86399, 0⟩ : PyDateTime).usec = 0 :=
  claim_C8 ⟨739000, 3600, 5⟩ none ⟨738998, 0, 0⟩ ⟨739004, 86399, 0⟩ (by decide) (by decide)

/-- C9 (counterexample): the window calculator is not total on nonnegative
`number_of_weeks`: a valid reference instant shifted back by 200000 weeks
leaves the supported `datetime` range, so the code raises `OverflowError`
(modelled as `none`) even though `number_of_weeks ≥ 0`. -/
theorem claim_C9_counterexample :
    (⟨739000, 0, 0⟩ : PyDateTime).Valid ∧ (0 : Int) ≤ 200000
    ∧ get_week_dates ⟨739000, 0, 0⟩ (some 200000) = none :=
  ⟨by decide, by decide, by decide⟩

/-- C9 (amended): for every valid reference instant and every integer
`number_of_weeks` — negative values included, they are not rejected — such
that the shifted instant and the computed window stay within the supported
`datetime` ordinal range `1..3652059`, `get_week_dates` succeeds and returns
a window; its only failure mode is leaving that range (`OverflowError`). -/
theorem claim_C9_amended (now : PyDateTime) (number_of_weeks : Int)
    (hv : now.Valid)
    (h1 : pyMinOrdinal ≤ now.ord - 7 * number_of_weeks)
    (h2 : now.ord - 7 * number_of_weeks ≤ pyMaxOrdinal)
    (h3 : now.ord - 7 * number_of_weeks
        - (now.ord - 7 * number_of_weeks - 1) % 7 + 6 ≤ pyMaxOrdinal) :
    (get_week_dates now (some number_of_weeks)).isSome = true := by
  obtain ⟨hv1, hv2, hv3, hv4, hv5, hv6⟩ := hv
  have hv1' : (1 : Int) ≤ now.ord := hv1
  have hv2' : now.ord ≤ (3652059 : Int) := hv2
  have h1' : (1 : Int) ≤ now.ord - 7 * number_of_weeks := h1
  have h2' : now.ord - 7 * number_of_weeks ≤ (3652059 : Int) := h2
  have h3' : now.ord - 7 * number_of_weeks
      - (now.ord - 7 * number_of_weeks - 1) % 7 + 6 ≤ (3652059 : Int) := h3
  unfold get_week_dates
  dsimp only
  by_cases hn : number_of_weeks = 0
  · subst hn
    rw [if_neg (by simp)]
    exact week_window_isSome now hv3 hv4 hv1' hv2' (by omega)
  · rw [if_pos hn]
    rw [addDelta_some now (-(7 * number_of_weeks)) 0 (by constructor <;> omega)]
    dsimp only
    apply week_window_isSome <;> dsimp only <;> omega

theorem claim_C9_witness :
    (get_week_dates ⟨739000, 0, 0⟩ (some (-1))).isSome = true :=
  claim_C9_amended ⟨739000, 0, 0⟩ (-1) (by decide) (by decide) (by decide) (by decide)

theorem setField_of_not_mem (l : List (String × JsonVal)) (x : String) (v : JsonVal)
    (h : x ∉ l.map Prod.fst) : setField l x v = l ++ [(x, v)] := by
  induction l with
  | nil => rfl
  | cons p tl ih =>
    simp only [List.map_cons, List.mem_cons, not_or] at h
    simp only [setField]
    rw [if_neg (by simp [Ne.symm h.1])]
    rw [ih h.2]
    rfl

/-- C1 (counterexample): on the specification's end-to-end payload the
normalizer does not produce a `b_c` column: `json_normalize` is called with
`max_level=0`, which keeps the nested object whole under its top-level key
`b`, so the columns are `a, b, modtagelsesdato, uuid` and not
`a, b_c, modtagelsesdato, uuid`. -/
theorem claim_C1_counterexample :
    (normalize_record "00000000-0000-0000-0000-000000000000" examplePayload).map
        (fun row => row.map Prod.fst)
      = some ["a", "b", "modtagelsesdato", "uuid"]
    ∧ (normalize_record "00000000-0000-0000-0000-000000000000" examplePayload).map
        (fun row => row.map Prod.fst)
      ≠ some ["a", "b_c", "modtagelsesdato", "uuid"] := by
  constructor
  · rfl
  · decide

/-- C1 (amended): for every record whose payload is the end-to-end example,
normalization produces the row `a = 1`, `b = the unflattened object`
`(c: 2)`, `modtagelsesdato = "2024-03-04 10:00:00"`, `uuid = the record
identifier`; in general a nested object or array field of the payload's
`data` object is kept whole under its top-level key (`max_level=0`: no
flattening, no underscore-joined column names), and the two synthetic
columns are appended after the data columns. -/
theorem claim_C1_amended (reference : String) :
    normalize_record reference examplePayload
      = some [("a", JsonVal.num 1), ("b", JsonVal.obj [("c", JsonVal.num 2)]),
              ("modtagelsesdato", JsonVal.str "2024-03-04 10:00:00"),
              ("uuid", JsonVal.str reference)]
    ∧ (∀ (fields : List (String × JsonVal)) (completedStr : String) (ts : TimeStamp),
        fromisoformat completedStr = some ts →
        "modtagelsesdato" ∉ fields.map Prod.fst →
        "uuid" ∉ fields.map Prod.fst →
        normalize_record reference
            (.obj [("data", .obj fields), ("completed", .str completedStr)])
          = some (fields ++ [("modtagelsesdato", JsonVal.str (strftime_ymd_hms ts)),
              ("uuid", JsonVal.str reference)])) := by
  constructor
  · rfl
  · intro fields completedStr ts hiso hm hu
    unfold normalize_record
    have hcase : modtagelsesdatoOf
        (JsonVal.obj [("data", JsonVal.obj fields), ("completed", JsonVal.str completedStr)])
        = some completedStr := rfl
    rw [hcase]
    dsimp only
    rw [hiso]
    dsimp only
    have hdata : getField
        (JsonVal.obj [("data", JsonVal.obj fields), ("completed", JsonVal.str completedStr)])
        "data" = some (JsonVal.obj fields) := rfl
    rw [hdata]
    dsimp only
    rw [setField_of_not_mem fields _ _ hm]
    rw [setField_of_not_mem _ _ _ (by simp [List.map_append, hu])]
    rw [List.append_assoc]
    rfl

theorem claim_C1_witness :
    normalize_record "r1" (.obj [("data", .obj [("x", JsonVal.arr [JsonVal.num 5])]),
        ("completed", .str "2025-01-06 08:30:00")])
      = some [("x", JsonVal.arr [JsonVal.num 5]),
              ("modtagelsesdato", JsonVal.str "2025-01-06 08:30:00"),
              ("uuid", JsonVal.str "r1")] := by
  have h := (claim_C1_amended "r1").2 [("x", JsonVal.arr [JsonVal.num 5])] "2025-01-06 08:30:00"
    ⟨2025, 1, 6, 8, 30, 0⟩ (by rfl) (by decide) (by decide)
  rw [h]
  rfl
